import Mathlib

/-!
Verification of the client-side script `static/js/main.js` of the blog CMS.

The file is a flat collection of independent initializer routines and pure
utility functions.  We embed each routine that the specification speaks
about as an executable Lean definition, translated directly from the
JavaScript source:

* `timeAgo` — the relative-time formatter (source lines 319–334);
* `debounce` — the debounce utility, modelled as an explicit timer state
  threaded through a trace of calls (source lines 342–352);
* `copyToClipboard` — the clipboard helper with its single caught-and-logged
  failure path (source lines 359–366);
* `initAutoHideAlerts` and its per-alert callback (source lines 253–270);
* the reply-toggle click handler and `initCharacterCounters`
  (source lines 93–108 and 284–292);
* the scroll handler of `initScrollToTop` (source lines 220–226);
* the submit handler of `initSearchEnhancement` (source lines 56–64);
* the counter-attachment pass of `initCommentSystem` (source lines 114–123);
* the change handler of `initImagePreview` (source lines 155–186).

The DOM is modelled shallowly: a document is a list of elements, an element
records the fields the script reads (tag, id, name, class list, text,
value, the `maxlength` attribute).  Timers are modelled by explicit
(fire-time, payload) pairs; JavaScript `Math.floor` on a quotient of
millisecond differences is `Int.fdiv`.
-/

/-- A DOM element, restricted to the fields the script reads or writes.
`classes` is the token list of `classList`; `maxlengthAttr` is the value of
`getAttribute(\x7bmaxlength\x7d)`, `none` when the attribute is absent. -/
structure Elem where
  tag : String := ""
  id : String := ""
  name : String := ""
  classes : List String := []
  text : String := ""
  value : String := ""
  maxlengthAttr : Option String := none
  deriving DecidableEq, Repr, Inhabited

/-! ### Relative-time formatter (`timeAgo`, lines 319–334)

The function computes `diffMs = now - past` in milliseconds and derives
seconds, minutes, hours and days by `Math.floor` division.  Below the
seven-day threshold it returns a relative phrase; at or above it, the
locale rendering of the date (`past.toLocaleDateString()`), which depends
on the runtime locale and is therefore kept abstract as a separate
constructor. -/

/-- Result of `timeAgo`: either a concrete relative phrase, or the
locale-dependent calendar date string produced by `toLocaleDateString`. -/
inductive TimeAgoResult where
  | phrase (s : String)
  | localeDate
  deriving DecidableEq, Repr

/-- `timeAgo`, as a function of the millisecond difference `now - past`.
`Int.fdiv` is JavaScript `Math.floor` of the quotient. -/
def timeAgo (diffMs : Int) : TimeAgoResult :=
  let diffSecs := diffMs.fdiv 1000
  let diffMins := diffSecs.fdiv 60
  let diffHours := diffMins.fdiv 60
  let diffDays := diffHours.fdiv 24
  if diffSecs < 60 then .phrase "just now"
  else if diffMins < 60 then
    .phrase (toString diffMins ++ " minute" ++ (if diffMins > 1 then "s" else "") ++ " ago")
  else if diffHours < 24 then
    .phrase (toString diffHours ++ " hour" ++ (if diffHours > 1 then "s" else "") ++ " ago")
  else if diffDays < 7 then
    .phrase (toString diffDays ++ " day" ++ (if diffDays > 1 then "s" else "") ++ " ago")
  else .localeDate

/-! ### Scroll-to-top visibility (`initScrollToTop`, lines 220–226) -/

/-- The scroll handler of `initScrollToTop`: the display style assigned to
the button after a scroll event, as a function of `window.scrollY`. -/
def scrollButtonDisplay (scrollY : Nat) : String :=
  if scrollY > 300 then "block" else "none"

/-! ### Search submit handler (`initSearchEnhancement`, lines 56–64) -/

/-- Observable effect of the submit handler attached to a search form:
whether `preventDefault` was called and whether the input was focused. -/
structure SearchSubmitEffect where
  prevented : Bool
  focusedInput : Bool
  deriving DecidableEq, Repr

/-- JavaScript `String.prototype.trim`: strip leading and trailing
whitespace.  Stated on the character list so the kernel can evaluate it. -/
def trimString (s : String) : String :=
  ⟨((s.data.dropWhile Char.isWhitespace).reverse.dropWhile Char.isWhitespace).reverse⟩

/-- The submit handler of `initSearchEnhancement`, as a function of the
search input value: prevent submission and focus the input exactly when
the trimmed value is empty. -/
def searchSubmitHandler (v : String) : SearchSubmitEffect :=
  if trimString v = "" then ⟨true, true⟩ else ⟨false, false⟩

/-! ### Clipboard helper (`copyToClipboard`, lines 359–366)

The `async` function awaits a single `navigator.clipboard.writeText`
attempt; we pass the outcome of that attempt as an `Except` value.  The
function logs on success, catches and logs on failure, and in both cases
the promise it returns resolves. -/

/-- A console message emitted by `copyToClipboard`. -/
inductive ConsoleEntry (ε : Type) where
  | log (s : String)
  | errorMsg (s : String) (e : ε)

/-- Everything observable about one run of `copyToClipboard`: the console
messages, what the returned promise settles to, and how many clipboard
write attempts were made. -/
structure CopyOutcome (ε : Type) where
  console : List (ConsoleEntry ε)
  promise : Except ε Unit
  writeAttempts : Nat

/-- `copyToClipboard`, as a function of the outcome of its single
`navigator.clipboard.writeText(text)` call. -/
def copyToClipboard (writeResult : Except ε Unit) : CopyOutcome ε :=
  match writeResult with
  | .ok _ => ⟨[.log "Copied to clipboard"], .ok (), 1⟩
  | .error err => ⟨[.errorMsg "Failed to copy:" err], .ok (), 1⟩

/-! ### Auto-hide alerts (`initAutoHideAlerts`, lines 253–270) -/

/-- What the auto-hide callback does to an alert: close it through the
framework instance, or fade it manually and remove it after 300 ms. -/
inductive AlertCloseAction where
  | frameworkClose
  | manualFadeRemove
  deriving DecidableEq, Repr

/-- The body of the `setTimeout` callback of `initAutoHideAlerts`:
`getOrCreate` is `bootstrap.Alert.getOrCreateInstance`, whose result is
tested for truthiness before `close()` is called; when it is unavailable
the manual fade-and-remove branch runs instead.  The callback itself never
throws, which the `Except.ok` wrapping makes explicit. -/
def autoHideCallback (getOrCreate : Elem → Option Unit) (alert : Elem) :
    Except String AlertCloseAction :=
  match getOrCreate alert with
  | some _ => .ok .frameworkClose
  | none => .ok .manualFadeRemove

/-- The selector `.alert:not(.alert-permanent)` of `initAutoHideAlerts`. -/
def selectAutoHideAlerts (doc : List Elem) : List Elem :=
  doc.filter (fun e => e.classes.contains "alert" && !(e.classes.contains "alert-permanent"))

/-- `initAutoHideAlerts`: for each matched alert a dismissal is scheduled
with `setTimeout(..., 5000)`; the result lists each scheduled (element,
delay-in-milliseconds) pair. -/
def initAutoHideAlerts (doc : List Elem) : List (Elem × Nat) :=
  (selectAutoHideAlerts doc).map (fun e => (e, 5000))

/-! ### Missing-element guards (lines 93–108 and 284–292) -/

/-- `document.getElementById`, on the flat document model: the first
element with the given id. -/
def getElementById (doc : List Elem) (i : String) : Option Elem :=
  doc.find? (fun e => e.id == i)

/-- Rewrite the first element satisfying `p` with `f`, leaving the rest of
the document unchanged. -/
def updateFirst (p : Elem → Bool) (f : Elem → Elem) : List Elem → List Elem
  | [] => []
  | x :: xs => if p x then f x :: xs else x :: updateFirst p f xs

/-- `classList.toggle` for a single class token. -/
def toggleClass (c : String) (e : Elem) : Elem :=
  if e.classes.contains c then
    { e with classes := e.classes.filter (fun x => x != c) }
  else
    { e with classes := e.classes ++ [c] }

/-- The click handler of a reply button in `initCommentSystem`: look up
`reply-form-` ++ commentId by id; when present toggle its `d-none` class
(the focus call touches no DOM state), when absent do nothing. -/
def replyClickHandler (doc : List Elem) (commentId : String) : List Elem :=
  match getElementById doc ("reply-form-" ++ commentId) with
  | none => doc
  | some _ =>
      updateFirst (fun e => e.id == "reply-form-" ++ commentId) (toggleClass "d-none") doc

/-- `initCharacterCounters`: only when both `id_meta_description` and
`meta-char-count` exist, the counter text is set to the length of the
meta-description value; otherwise the document is untouched. -/
def initCharacterCounters (doc : List Elem) : List Elem :=
  match getElementById doc "id_meta_description", getElementById doc "meta-char-count" with
  | some metaDesc, some _ =>
      updateFirst (fun e => e.id == "meta-char-count")
        (fun e => { e with text := toString metaDesc.value.length }) doc
  | _, _ => doc

/-!
## Claim theorems
-/

/-- C1: at each of the spec's fixed deltas the formatter returns the stated
string — 30 s gives "just now", 5 min gives "5 minutes ago", 2 h gives
"2 hours ago", 3 d gives "3 days ago", and 10 d falls through to the
calendar (locale) date rendering rather than a relative phrase. -/
theorem timeAgo_fixed_deltas :
    timeAgo (30 * 1000) = .phrase "just now" ∧
    timeAgo (5 * 60 * 1000) = .phrase "5 minutes ago" ∧
    timeAgo (2 * 60 * 60 * 1000) = .phrase "2 hours ago" ∧
    timeAgo (3 * 24 * 60 * 60 * 1000) = .phrase "3 days ago" ∧
    timeAgo (10 * 24 * 60 * 60 * 1000) = .localeDate := by
  refine ⟨?_, ?_, ?_, ?_, ?_⟩ <;> rfl

/-- C7: after a scroll event the button's display style is `block` exactly
when the vertical scroll offset exceeds 300 pixels, and `none` otherwise. -/
theorem scrollButton_visibility (y : Nat) :
    (scrollButtonDisplay y = "block" ↔ 300 < y) ∧
    (scrollButtonDisplay y = "none" ↔ ¬ 300 < y) := by
  unfold scrollButtonDisplay
  by_cases h : 300 < y <;> simp [h]

/-- Witness for C7: at offset 301 the button is shown. -/
theorem scrollButton_visibility_witness : scrollButtonDisplay 301 = "block" :=
  (scrollButton_visibility 301).1.mpr (by decide)

/-- C8: the submit handler prevents submission and focuses the input
exactly when the input value is empty after trimming; a non-blank query
never blocks submission. -/
theorem searchSubmit_blank_iff (v : String) :
    ((searchSubmitHandler v).prevented = true ∧ (searchSubmitHandler v).focusedInput = true
      ↔ trimString v = "") ∧
    (trimString v ≠ "" → (searchSubmitHandler v).prevented = false) := by
  unfold searchSubmitHandler
  by_cases h : trimString v = "" <;> simp [h]

/-- Witness for C8: a whitespace-only query is blocked with focus moved,
and a non-blank query is not blocked. -/
theorem searchSubmit_blank_iff_witness :
    (searchSubmitHandler "  ").prevented = true ∧
    (searchSubmitHandler "lean").prevented = false :=
  ⟨((searchSubmit_blank_iff "  ").1.mpr (by decide)).1,
   (searchSubmit_blank_iff "lean").2 (by decide)⟩

/-- C3: the clipboard helper never propagates an error — for every outcome
of the single write attempt the returned promise resolves, exactly one
write attempt is made (no retry), and a failure is logged on the single
catch path. -/
theorem copyToClipboard_no_propagation {ε : Type} (w : Except ε Unit) :
    (copyToClipboard w).promise = .ok () ∧
    (copyToClipboard w).writeAttempts = 1 ∧
    (∀ err, w = .error err →
      (copyToClipboard w).console = [.errorMsg "Failed to copy:" err]) := by
  cases w with
  | ok _ => exact ⟨rfl, rfl, fun err h => by cases h⟩
  | error err => exact ⟨rfl, rfl, fun e h => by cases h; rfl⟩

/-- Witness for C3: a concrete failing write is caught, logged, and the
promise still resolves. -/
theorem copyToClipboard_no_propagation_witness :
    (copyToClipboard (Except.error "denied")).promise = Except.ok () ∧
    (copyToClipboard (Except.error "denied")).console
      = [ConsoleEntry.errorMsg "Failed to copy:" "denied"] :=
  ⟨(copyToClipboard_no_propagation (Except.error "denied")).1,
   (copyToClipboard_no_propagation (Except.error "denied")).2.2 "denied" rfl⟩

/-- C5: the framework's alert-dismissal is invoked defensively — the
callback checks the result of `getOrCreateInstance` before calling
`close`, never throws, and falls back to the manual fade-and-remove path
when the instance is unavailable. -/
theorem autoHideCallback_defensive (getOrCreate : Elem → Option Unit) (a : Elem) :
    (∃ r, autoHideCallback getOrCreate a = .ok r) ∧
    (getOrCreate a = none → autoHideCallback getOrCreate a = .ok .manualFadeRemove) ∧
    (∀ i, getOrCreate a = some i → autoHideCallback getOrCreate a = .ok .frameworkClose) := by
  unfold autoHideCallback
  cases h : getOrCreate a with
  | none => exact ⟨⟨.manualFadeRemove, rfl⟩, fun _ => rfl, fun i hi => by simp at hi⟩
  | some i => exact ⟨⟨.frameworkClose, rfl⟩, fun hn => by simp at hn, fun _ _ => rfl⟩

/-- Witness for C5: with an unavailable instance the concrete callback run
returns the manual fade-and-remove action without throwing. -/
theorem autoHideCallback_defensive_witness :
    autoHideCallback (fun _ => none) {} = .ok .manualFadeRemove :=
  (autoHideCallback_defensive (fun _ => none) {}).2.1 rfl

/-- C4: every element carrying class `alert` but not `alert-permanent` is
scheduled for dismissal with a delay of exactly 5000 ms (5 seconds), and an
element carrying `alert-permanent` is never scheduled. -/
theorem initAutoHideAlerts_schedule (doc : List Elem) (e : Elem) (he : e ∈ doc) :
    (e.classes.contains "alert" = true → e.classes.contains "alert-permanent" = false →
      (e, 5000) ∈ initAutoHideAlerts doc) ∧
    (e.classes.contains "alert-permanent" = true →
      ∀ d, (e, d) ∉ initAutoHideAlerts doc) := by
  constructor
  · intro ha hp
    unfold initAutoHideAlerts selectAutoHideAlerts
    refine List.mem_map.mpr ⟨e, List.mem_filter.mpr ⟨he, ?_⟩, rfl⟩
    show (e.classes.contains "alert" && !(e.classes.contains "alert-permanent")) = true
    rw [ha, hp]
    rfl
  · intro hp d hmem
    unfold initAutoHideAlerts selectAutoHideAlerts at hmem
    rcases List.mem_map.mp hmem with ⟨x, hx, hxe⟩
    rcases List.mem_filter.mp hx with ⟨-, hcond⟩
    have hxe1 : x = e := congrArg Prod.fst hxe
    replace hcond :
        (x.classes.contains "alert" && !(x.classes.contains "alert-permanent")) = true := hcond
    rw [hxe1, hp] at hcond
    simp at hcond

/-- Witness for C4: on a concrete document holding one plain alert and one
permanent alert, the plain one is scheduled at 5000 ms and the permanent
one is not scheduled at any of the delays actually in the schedule. -/
theorem initAutoHideAlerts_schedule_witness :
    ((({ classes := ["alert"] } : Elem), 5000) ∈
      initAutoHideAlerts [{ classes := ["alert"] }, { classes := ["alert", "alert-permanent"] }]) ∧
    ((({ classes := ["alert", "alert-permanent"] } : Elem), 5000) ∉
      initAutoHideAlerts [{ classes := ["alert"] }, { classes := ["alert", "alert-permanent"] }]) :=
  ⟨(initAutoHideAlerts_schedule _ _ (by simp)).1 (by decide) (by decide),
   (initAutoHideAlerts_schedule
      [{ classes := ["alert"] }, { classes := ["alert", "alert-permanent"] }]
      { classes := ["alert", "alert-permanent"] } (by simp)).2 (by decide) 5000⟩

/-- C6: the initializer routines guard against missing elements — when
`reply-form-` ++ cid is absent the reply click handler returns the document
unchanged, and when either `id_meta_description` or `meta-char-count` is
absent `initCharacterCounters` returns the document unchanged; both are
total, so no error is raised. -/
theorem missing_element_guards (doc : List Elem) (cid : String)
    (h1 : getElementById doc ("reply-form-" ++ cid) = none)
    (h2 : getElementById doc "id_meta_description" = none ∨
          getElementById doc "meta-char-count" = none) :
    replyClickHandler doc cid = doc ∧ initCharacterCounters doc = doc := by
  constructor
  · unfold replyClickHandler
    rw [h1]
  · unfold initCharacterCounters
    cases hA : getElementById doc "id_meta_description" with
    | none => rfl
    | some m =>
        cases hB : getElementById doc "meta-char-count" with
        | none => rfl
        | some c =>
            exfalso
            rcases h2 with h | h
            · exact Option.noConfusion (h.symm.trans hA)
            · exact Option.noConfusion (h.symm.trans hB)

/-- Witness for C6: on a document holding only an unrelated element, both
routines leave the document unchanged. -/
theorem missing_element_guards_witness :
    replyClickHandler [{ id := "other" }] "42" = [{ id := "other" }] ∧
    initCharacterCounters [{ id := "other" }] = [{ id := "other" }] :=
  missing_element_guards [{ id := "other" }] "42" (by decide) (Or.inl (by decide))

/-! ### Debounce utility (`debounce`, lines 342–352)

The closure keeps one timer handle.  Each call clears any pending timer
and arms a fresh one that fires `wait` milliseconds later with the
arguments of that call; when the timer fires, the wrapped function runs.
We model the closure state explicitly: `pending` is the armed timer as a
(fire-time, arguments) pair, `fired` records every invocation of the
wrapped function as a (time, arguments) pair.  A call at time `t` first
accounts for a pending timer that already fired (`fireTime ≤ t`), then
re-arms; `debounceFlush` lets a still-pending timer at the end of a trace
fire undisturbed. -/

/-- State of the `debounce` closure between events. -/
structure DebounceState (α : Type) where
  pending : Option (Nat × α)
  fired : List (Nat × α)
  deriving Repr

/-- One call of the function returned by `debounce(func, wait)`, at time
`t` with arguments `a`: a pending timer that already expired has invoked
`func`; otherwise `clearTimeout` cancels it; either way `setTimeout(later,
wait)` re-arms the timer for `t + wait` with the fresh arguments. -/
def debounceCall {α : Type} (wait : Nat) (s : DebounceState α) (t : Nat) (a : α) :
    DebounceState α :=
  match s.pending with
  | some (ft, b) =>
      if ft ≤ t then ⟨some (t + wait, a), s.fired ++ [(ft, b)]⟩
      else ⟨some (t + wait, a), s.fired⟩
  | none => ⟨some (t + wait, a), s.fired⟩

/-- After the last call of a trace nothing clears the timer, so a pending
timer fires at its due time. -/
def debounceFlush {α : Type} (s : DebounceState α) : List (Nat × α) :=
  match s.pending with
  | some (ft, b) => s.fired ++ [(ft, b)]
  | none => s.fired

/-- All invocations of the wrapped function produced by a finite trace of
calls, each a (time, arguments) pair, run against a fresh closure. -/
def debounceRun {α : Type} (wait : Nat) (calls : List (Nat × α)) : List (Nat × α) :=
  debounceFlush (calls.foldl (fun s c => debounceCall wait s c.1 c.2) ⟨none, []⟩)

/-- The last call of a nonempty trace, written with an explicit head. -/
def lastCall {α : Type} (c : Nat × α) : List (Nat × α) → Nat × α
  | [] => c
  | c2 :: rest => lastCall c2 rest

/-- Stepping the debounce closure through the tail of a burst: while every
consecutive gap stays below `wait`, the pending timer is always cancelled
before it can fire, so no invocation is recorded and the timer ends up
armed for the last call. -/
theorem debounce_foldl_burst {α : Type} (wait : Nat) :
    ∀ (calls : List (Nat × α)) (t : Nat) (a : α) (f : List (Nat × α)),
      List.Chain' (fun p q : Nat × α => q.1 < p.1 + wait) ((t, a) :: calls) →
      calls.foldl (fun s c => debounceCall wait s c.1 c.2) ⟨some (t + wait, a), f⟩ =
        ⟨some ((lastCall (t, a) calls).1 + wait, (lastCall (t, a) calls).2), f⟩
  | [], _, _, _, _ => rfl
  | (t2, a2) :: rest, t, a, f, h => by
      have h1 : t2 < t + wait := (List.chain'_cons.mp h).1
      have h2 := (List.chain'_cons.mp h).2
      simp only [List.foldl_cons]
      have hstep : debounceCall wait (⟨some (t + wait, a), f⟩ : DebounceState α) t2 a2 =
          ⟨some (t2 + wait, a2), f⟩ := by
        unfold debounceCall
        simp only
        rw [if_neg (by omega)]
      rw [hstep]
      exact debounce_foldl_burst wait rest t2 a2 f h2

/-- C2: over any finite burst of calls in which each call follows the
previous one after less than `wait`, the wrapped function is invoked
exactly once, at `wait` after the last call of the burst, with the
arguments of that last call — each new call having cancelled and re-armed
the pending timer of the previous one. -/
theorem debounce_single_invocation {α : Type} (wait t : Nat) (a : α)
    (rest : List (Nat × α))
    (h : List.Chain' (fun p q : Nat × α => q.1 < p.1 + wait) ((t, a) :: rest)) :
    debounceRun wait ((t, a) :: rest) =
      [((lastCall (t, a) rest).1 + wait, (lastCall (t, a) rest).2)] := by
  unfold debounceRun
  simp only [List.foldl_cons]
  have h0 : debounceCall wait (⟨none, []⟩ : DebounceState α) t a =
      ⟨some (t + wait, a), []⟩ := rfl
  rw [h0, debounce_foldl_burst wait rest t a [] h]
  rfl

/-- Witness for C2: with wait 100 and calls at times 0, 50, 120 (gaps 50
and 70, both below 100) carrying arguments 1, 2, 3, the wrapped function
runs exactly once, at time 220 with argument 3. -/
theorem debounce_single_invocation_witness :
    debounceRun 100 [(0, 1), (50, 2), (120, 3)] = [(220, 3)] :=
  debounce_single_invocation 100 0 1 [(50, 2), (120, 3)] (by
    refine List.chain'_cons.mpr ⟨by omega, ?_⟩
    refine List.chain'_cons.mpr ⟨by omega, ?_⟩
    exact List.chain'_singleton _)

/-! ### Comment char counters (`initCommentSystem`, lines 114–123)

For each `textarea[name="content"]` the initializer inserts a
`small.char-counter` element right after the textarea — but only when the
textarea's `nextElementSibling` does not already carry the `char-counter`
class (`nextElementSibling` of the last child is `undefined`, which the
optional chaining turns into "no counter there").  We model the sibling
list of a container and the full insertion pass over it. -/

/-- The selector `textarea[name="content"]` of `initCommentSystem`. -/
def isCommentTextarea (e : Elem) : Bool :=
  e.tag == "textarea" && e.name == "content"

/-- Membership of `char-counter` in an element's class list. -/
def isCharCounterElem (e : Elem) : Bool :=
  e.classes.contains "char-counter"

/-- The guard `textarea.nextElementSibling?.classList.contains(...)` on
the siblings following the textarea: false when there is no next sibling. -/
def nextIsCharCounter (rest : List Elem) : Bool :=
  match rest.head? with
  | some s => isCharCounterElem s
  | none => false

/-- `getAttribute(...) || 1000`: the `maxlength` attribute with the
JavaScript falsy fallback (absent or empty attribute gives 1000). -/
def maxLengthOf (e : Elem) : String :=
  match e.maxlengthAttr with
  | some s => if s = "" then "1000" else s
  | none => "1000"

/-- The counter element created for a textarea: a `small` with class
`char-counter text-muted d-block text-end` and text `0/` ++ maxlength. -/
def charCounterFor (e : Elem) : Elem :=
  { tag := "small",
    classes := ["char-counter", "text-muted", "d-block", "text-end"],
    text := "0/" ++ maxLengthOf e }

/-- The counter-attachment pass of `initCommentSystem` over a sibling
list: after each comment textarea whose next sibling is not already a
char-counter, insert a fresh counter. -/
def attachCharCounters : List Elem → List Elem
  | [] => []
  | e :: rest =>
      if isCommentTextarea e && !(nextIsCharCounter rest) then
        e :: charCounterFor e :: attachCharCounters rest
      else
        e :: attachCharCounters rest

/-- Invariant reached by one pass: every comment textarea is immediately
followed by a char-counter element. -/
def countersPlaced : List Elem → Bool
  | [] => true
  | e :: rest => (!(isCommentTextarea e) || nextIsCharCounter rest) && countersPlaced rest

theorem attachCharCounters_head (x : Elem) (l : List Elem) :
    (attachCharCounters (x :: l)).head? = some x := by
  unfold attachCharCounters
  split <;> rfl

theorem nextIsCharCounter_attach (s : Elem) (l : List Elem) :
    nextIsCharCounter (attachCharCounters (s :: l)) = isCharCounterElem s := by
  unfold nextIsCharCounter
  rw [attachCharCounters_head]

theorem countersPlaced_attach (l : List Elem) :
    countersPlaced (attachCharCounters l) = true := by
  induction l with
  | nil => rfl
  | cons e rest ih =>
      show countersPlaced
          (if isCommentTextarea e && !(nextIsCharCounter rest) then
            e :: charCounterFor e :: attachCharCounters rest
          else e :: attachCharCounters rest) = true
      by_cases hc : (isCommentTextarea e && !(nextIsCharCounter rest)) = true
      · rw [if_pos hc]
        show ((!(isCommentTextarea e) ||
              nextIsCharCounter (charCounterFor e :: attachCharCounters rest)) &&
            ((!(isCommentTextarea (charCounterFor e)) ||
              nextIsCharCounter (attachCharCounters rest)) &&
              countersPlaced (attachCharCounters rest))) = true
        rw [ih]
        have h1 : nextIsCharCounter (charCounterFor e :: attachCharCounters rest) = true := rfl
        have h2 : isCommentTextarea (charCounterFor e) = false := rfl
        rw [h1, h2]
        simp
      · rw [if_neg hc]
        show ((!(isCommentTextarea e) || nextIsCharCounter (attachCharCounters rest)) &&
            countersPlaced (attachCharCounters rest)) = true
        rw [ih, Bool.and_true]
        cases hT : isCommentTextarea e with
        | false => rfl
        | true =>
            have hr : nextIsCharCounter rest = true := by
              cases hn : nextIsCharCounter rest with
              | true => rfl
              | false => exact absurd (by rw [hT, hn]; rfl) hc
            cases rest with
            | nil => exact Bool.noConfusion hr
            | cons s rest2 =>
                rw [nextIsCharCounter_attach s rest2]
                have hs : isCharCounterElem s = true := hr
                rw [hs]
                simp

theorem attach_of_countersPlaced (l : List Elem) (h : countersPlaced l = true) :
    attachCharCounters l = l := by
  induction l with
  | nil => rfl
  | cons e rest ih =>
      have h1 : (!(isCommentTextarea e) || nextIsCharCounter rest) = true :=
        (Bool.and_eq_true_iff.mp h).1
      have h2 : countersPlaced rest = true := (Bool.and_eq_true_iff.mp h).2
      have hcond : (isCommentTextarea e && !(nextIsCharCounter rest)) = false := by
        cases hT : isCommentTextarea e with
        | false => rfl
        | true =>
            have hn : nextIsCharCounter rest = true := by
              rcases Bool.or_eq_true_iff.mp h1 with hl | hr
              · rw [hT] at hl
                exact Bool.noConfusion hl
              · exact hr
            rw [hn]
            rfl
      show (if isCommentTextarea e && !(nextIsCharCounter rest) then
          e :: charCounterFor e :: attachCharCounters rest
        else e :: attachCharCounters rest) = e :: rest
      simp [hcond, ih h2]

/-- C9: attaching the comment character counters is idempotent — one pass
leaves every comment textarea followed by a char-counter, so a second pass
inserts nothing and repeated initialization never duplicates counters. -/
theorem attachCharCounters_idempotent (l : List Elem) :
    attachCharCounters (attachCharCounters l) = attachCharCounters l :=
  attach_of_countersPlaced _ (countersPlaced_attach l)

/-! ### Image preview (`initImagePreview`, lines 155–186)

The change handler reads `e.target.files[0]`; only when a file is present
and its MIME type starts with `image/` does it touch the DOM: it finds (or
creates and appends) a `.image-preview` container among the input's parent
subtree, allocates one object URL for the file, clears the container and
fills it with the thumbnail image and the file name.  The parent's subtree
is modelled by its child list. -/

/-- A selected file: its name and MIME type. -/
structure JsFile where
  fileName : String
  mimeType : String
  deriving DecidableEq, Repr

/-- A node of the preview subtree (tag, class tokens, `src`, text,
children). -/
inductive PNode where
  | node (tag : String) (classes : List String) (src : String) (text : String)
      (children : List PNode)

/-- Class tokens of a preview node. -/
def PNode.pclasses : PNode → List String
  | .node _ c _ _ _ => c

/-- JavaScript `String.prototype.startsWith`, on character lists so the
kernel can evaluate it. -/
def strStartsWith (s p : String) : Bool :=
  List.isPrefixOf p.data s.data

/-- The selector `.image-preview` used by the handler. -/
def isImagePreviewNode (p : PNode) : Bool :=
  p.pclasses.contains "image-preview"

/-- The thumbnail image: `src` is the freshly created object URL. -/
def previewImg (f : JsFile) : PNode :=
  .node "img" ["img-thumbnail"] ("objectURL:" ++ f.fileName) "" []

/-- The `small` element carrying the file name. -/
def previewFileName (f : JsFile) : PNode :=
  .node "small" ["d-block", "text-muted", "mt-1"] "" f.fileName []

/-- Clear the container (`innerHTML` set to the empty string) and append
the thumbnail and the file name. -/
def fillPreview (f : JsFile) : PNode → PNode
  | .node tag cls src _ _ => .node tag cls src "" [previewImg f, previewFileName f]

/-- Rewrite the first node satisfying `p` with `f`. -/
def updateFirstNode (p : PNode → Bool) (f : PNode → PNode) : List PNode → List PNode
  | [] => []
  | x :: xs => if p x then f x :: xs else x :: updateFirstNode p f xs

/-- Result of one change event: the parent's child list afterwards and the
number of object URLs allocated. -/
structure PreviewResult where
  children : List PNode
  urlsAllocated : Nat

/-- The change handler of `initImagePreview`: guard on a present file with
an `image/` MIME type; inside the guard, find or create the preview
container, allocate one object URL and fill the container. -/
def imagePreviewChange (files : List JsFile) (parentChildren : List PNode) :
    PreviewResult :=
  match files.head? with
  | none => ⟨parentChildren, 0⟩
  | some f =>
      if strStartsWith f.mimeType "image/" then
        if (parentChildren.find? isImagePreviewNode).isSome then
          ⟨updateFirstNode isImagePreviewNode (fillPreview f) parentChildren, 1⟩
        else
          ⟨parentChildren ++ [fillPreview f (.node "div" ["image-preview", "mt-2"] "" "" [])], 1⟩
      else ⟨parentChildren, 0⟩

/-- C10: when no file is selected, or the selected file's MIME type does
not start with `image/`, the change handler leaves the parent's children
untouched and allocates no object URL. -/
theorem imagePreview_frame_condition (files : List JsFile) (dom : List PNode)
    (h : ∀ f, files.head? = some f → strStartsWith f.mimeType "image/" = false) :
    imagePreviewChange files dom = ⟨dom, 0⟩ := by
  cases files with
  | nil => rfl
  | cons f rest =>
      have hf : strStartsWith f.mimeType "image/" = false := h f rfl
      have hu : imagePreviewChange (f :: rest) dom =
          if strStartsWith f.mimeType "image/" then
            (if (dom.find? isImagePreviewNode).isSome then
              ⟨updateFirstNode isImagePreviewNode (fillPreview f) dom, 1⟩
            else
              ⟨dom ++ [fillPreview f (.node "div" ["image-preview", "mt-2"] "" "" [])], 1⟩)
          else ⟨dom, 0⟩ := rfl
      rw [hu, if_neg (by simp [hf])]

/-- Witness for C10: a selected plain-text file leaves an empty child list
empty and allocates no URL. -/
theorem imagePreview_frame_condition_witness :
    imagePreviewChange [⟨"notes.txt", "text/plain"⟩] [] = ⟨[], 0⟩ :=
  imagePreview_frame_condition [⟨"notes.txt", "text/plain"⟩] [] (by
    intro f hf
    cases hf
    rfl)
